import Mathlib

/-!
Shallow embedding of the mcp-ical adapter layer (src/mcp_ical/models.py and
src/mcp_ical/ical.py) for checking the natural-language specification.

Conventions of the embedding:
* Python `datetime` values are modelled by `MCPIcal.PyDateTime`: local
  wall-clock seconds together with an optional fixed UTC offset
  (`none` models a naive datetime, `some o` an aware one).
* Python truthiness is modelled explicitly: `None` and the empty string or
  empty list are falsy; every other modelled value is truthy.
* A raised Python exception is modelled by `Except.error`.
* Native EventKit objects are modelled by records over the fields this
  adapter reads and writes; store side effects are modelled by returning
  the list of native objects passed to the save/remove calls.
* Alarm relative offsets (`NSTimeInterval` seconds) are modelled as
  integers; `int(x)` on an exact quotient is integer division truncating
  toward zero (`Int.tdiv`).
-/

namespace MCPIcal

/-- Model of a Python `datetime`: wall-clock seconds plus an optional UTC
offset in seconds (`none` = naive, `some o` = aware with fixed offset `o`). -/
structure PyDateTime where
  wall : Int
  tzOffset : Option Int
deriving DecidableEq

/-- Python `==` between datetimes: two naive values compare by wall clock,
two aware values compare by the instant they denote, and a naive value never
equals an aware one. -/
def pyDateTimeEq (a b : PyDateTime) : Bool :=
  match a.tzOffset, b.tzOffset with
  | none, none => a.wall == b.wall
  | some o1, some o2 => a.wall - o1 == b.wall - o2
  | _, _ => false

/-- `datetime.fromtimestamp`: epoch seconds to a naive datetime in the local
zone whose UTC offset is `localOff` seconds. -/
def fromtimestamp (localOff : Int) (t : Int) : PyDateTime :=
  ⟨t + localOff, none⟩

/-- A parsed ISO-8601 string: the wall-clock seconds written in the string and
the explicit UTC offset, when the string carries one. -/
structure IsoString where
  wall : Int
  offset : Option Int
deriving DecidableEq

/-- `datetime.fromisoformat`: the string parses to exactly the wall clock and
offset it spells out (aware iff an offset is present). -/
def fromisoformat (s : IsoString) : PyDateTime :=
  ⟨s.wall, s.offset⟩

/-- The shapes of input accepted by `convert_datetime` in models.py:
a native store timestamp (responds to `timeIntervalSince1970`), an ISO-8601
string, an already-typed `datetime`, or anything else. -/
inductive DTValue where
  | nativeDate (timeIntervalSince1970 : Int)
  | isoString (s : IsoString)
  | pyDatetime (d : PyDateTime)
  | unrecognized (tag : Nat)
deriving DecidableEq

/-- `convert_datetime` from models.py: native timestamps go through
`datetime.fromtimestamp`, strings through `datetime.fromisoformat`, datetimes
pass through unchanged, and unrecognized shapes are returned as given. -/
def convert_datetime (localOff : Int) : DTValue → DTValue
  | .nativeDate t => .pyDatetime (fromtimestamp localOff t)
  | .isoString s => .pyDatetime (fromisoformat s)
  | .pyDatetime d => .pyDatetime d
  | .unrecognized tag => .unrecognized tag

/-- The instant (epoch seconds) a datetime-like value denotes, reading naive
wall clocks in the local zone of offset `localOff`. -/
def DTValue.instant (localOff : Int) : DTValue → Option Int
  | .nativeDate t => some t
  | .isoString s =>
    match s.offset with
    | some o => some (s.wall - o)
    | none => some (s.wall - localOff)
  | .pyDatetime d =>
    match d.tzOffset with
    | some o => some (d.wall - o)
    | none => some (d.wall - localOff)
  | .unrecognized _ => none

/-- `Frequency` enumeration from models.py (EKRecurrenceFrequency codes 0-3). -/
inductive Frequency where
  | daily
  | weekly
  | monthly
  | yearly
deriving DecidableEq

/-- The numeric code of a `Frequency` member. -/
def Frequency.value : Frequency → Int
  | .daily => 0
  | .weekly => 1
  | .monthly => 2
  | .yearly => 3

/-- `Frequency(code)`: look a numeric code up in the enumeration, `none` when
the code is out of range (Python raises ValueError there). -/
def Frequency.ofValue : Int → Option Frequency
  | 0 => some .daily
  | 1 => some .weekly
  | 2 => some .monthly
  | 3 => some .yearly
  | _ => none

/-- `Weekday` enumeration from models.py (store codes 1-7, Sunday = 1). -/
inductive Weekday where
  | sunday
  | monday
  | tuesday
  | wednesday
  | thursday
  | friday
  | saturday
deriving DecidableEq

/-- The numeric code of a `Weekday` member. -/
def Weekday.value : Weekday → Int
  | .sunday => 1
  | .monday => 2
  | .tuesday => 3
  | .wednesday => 4
  | .thursday => 5
  | .friday => 6
  | .saturday => 7

/-- `Weekday(code)`: look a numeric code up in the enumeration, `none` when
the code is out of range. -/
def Weekday.ofValue : Int → Option Weekday
  | 1 => some .sunday
  | 2 => some .monday
  | 3 => some .tuesday
  | 4 => some .wednesday
  | 5 => some .thursday
  | 6 => some .friday
  | 7 => some .saturday
  | _ => none

/-- The `RecurrenceRule` pydantic model from models.py. -/
structure RecurrenceRule where
  frequency : Frequency
  interval : Int
  end_date : Option PyDateTime
  occurrence_count : Option Int
  days_of_week : Option (List Weekday)
deriving DecidableEq

/-- Constructing a `RecurrenceRule`: pydantic first checks the field
constraint `interval >= 1`, then runs the `validate_end_conditions` model
validator, which rejects `end_date` and `occurrence_count` both set. -/
def mkRecurrenceRule (frequency : Frequency) (interval : Int)
    (end_date : Option PyDateTime) (occurrence_count : Option Int)
    (days_of_week : Option (List Weekday)) : Except String RecurrenceRule :=
  if interval < 1 then
    .error "interval: Input should be greater than or equal to 1"
  else if end_date.isSome && occurrence_count.isSome then
    .error "Only one of end_date or occurrence_count can be set"
  else
    .ok ⟨frequency, interval, end_date, occurrence_count, days_of_week⟩

/-- Native `EKRecurrenceDayOfWeek`: a day code plus a week number
(0 = any week of the month). -/
structure EKRecurrenceDayOfWeek where
  dayOfTheWeek : Int
  weekNumber : Int
deriving DecidableEq

/-- Native `EKRecurrenceEnd`: EventKit stores an optional end date together
with an occurrence count that is 0 exactly when the end is date-based. -/
structure EKRecurrenceEnd where
  endDate : Option PyDateTime
  occurrenceCount : Int
deriving DecidableEq

/-- `EKRecurrenceEnd.recurrenceEndWithEndDate_`: date-based end, count 0. -/
def EKRecurrenceEnd.withEndDate (d : PyDateTime) : EKRecurrenceEnd :=
  ⟨some d, 0⟩

/-- `EKRecurrenceEnd.recurrenceEndWithOccurrenceCount_`: count-based end,
no end date. -/
def EKRecurrenceEnd.withOccurrenceCount (n : Int) : EKRecurrenceEnd :=
  ⟨none, n⟩

/-- Native `EKRecurrenceRule` over the fields the adapter touches; the
day-of-month/month-of-year/week-of-year/day-of-year/set-position slots are
carried to record that `to_ek_recurrence` always leaves them unset. -/
structure EKRecurrenceRule where
  frequency : Int
  interval : Int
  daysOfTheWeek : Option (List EKRecurrenceDayOfWeek)
  daysOfTheMonth : Option (List Int)
  monthsOfTheYear : Option (List Int)
  weeksOfTheYear : Option (List Int)
  daysOfTheYear : Option (List Int)
  setPositions : Option (List Int)
  recurrenceEnd : Option EKRecurrenceEnd
deriving DecidableEq

/-- `RecurrenceRule.to_ek_recurrence` from models.py. Python truthiness is
explicit: `if self.end_date` is true for any datetime, `elif
self.occurrence_count` is false for 0, and `if self.days_of_week` is false
for the empty list. -/
def RecurrenceRule.to_ek_recurrence (r : RecurrenceRule) : EKRecurrenceRule :=
  let endRule : Option EKRecurrenceEnd :=
    match r.end_date with
    | some d => some (EKRecurrenceEnd.withEndDate d)
    | none =>
      match r.occurrence_count with
      | some n => if n = 0 then none else some (EKRecurrenceEnd.withOccurrenceCount n)
      | none => none
  let ekDays : Option (List EKRecurrenceDayOfWeek) :=
    match r.days_of_week with
    | some l => if l = [] then none else some (l.map (fun day => ⟨day.value, 0⟩))
    | none => none
  ⟨r.frequency.value, r.interval, ekDays, none, none, none, none, none, endRule⟩

/-- `Weekday(day.dayOfTheWeek())` applied to one native day record: raises
(models as `Except.error`) on an out-of-range code. -/
def weekdayFromEKDay (d : EKRecurrenceDayOfWeek) : Except String Weekday :=
  match Weekday.ofValue d.dayOfTheWeek with
  | some w => .ok w
  | none => .error "ValueError: invalid Weekday"

/-- The recurrence branch of `Event.from_ekevent` in models.py: rebuild a
`RecurrenceRule` from a native rule. `if rule.daysOfTheWeek()` is false for
nil and for an empty array; the end condition sets `end_date` exactly when a
recurrence end is present with occurrence count 0, and `occurrence_count`
exactly when a recurrence end is present with a nonzero count. -/
def recurrenceRuleFromEK (rule : EKRecurrenceRule) : Except String RecurrenceRule :=
  let daysRes : Except String (Option (List Weekday)) :=
    match rule.daysOfTheWeek with
    | some l => if l = [] then .ok none else (l.mapM weekdayFromEKDay).map some
    | none => .ok none
  match daysRes with
  | .error msg => .error msg
  | .ok days =>
    match Frequency.ofValue rule.frequency with
    | none => .error "ValueError: invalid Frequency"
    | some freq =>
      let end_date : Option PyDateTime :=
        match rule.recurrenceEnd with
        | some e => if e.occurrenceCount = 0 then e.endDate else none
        | none => none
      let occurrence_count : Option Int :=
        match rule.recurrenceEnd with
        | some e => if e.occurrenceCount = 0 then none else some e.occurrenceCount
        | none => none
      mkRecurrenceRule freq rule.interval end_date occurrence_count days

/-- Native `EKParticipant` reduced to the one field the adapter reads. -/
structure EKAttendee where
  name : String
deriving DecidableEq

/-- Native `EKAlarm`: a relative offset in seconds from the event start
(negative = before the start). -/
structure EKAlarm where
  relativeOffset : Int
deriving DecidableEq

/-- Native `EKCalendar` reduced to its title. -/
structure EKCalendar where
  title : String
deriving DecidableEq

/-- Native `EKEvent` over the fields the adapter reads and writes. A fresh,
not-yet-configured event has `calendar = none` (nil until `setCalendar_`). -/
structure EKEvent where
  title : String
  startDate : PyDateTime
  endDate : PyDateTime
  calendar : Option EKCalendar
  location : Option String
  notes : Option String
  URL : Option String
  isAllDay : Bool
  alarms : Option (List EKAlarm)
  recurrenceRule : Option EKRecurrenceRule
  availability : Int
  status : Int
  organizer : Option EKAttendee
  attendees : Option (List EKAttendee)
  lastModifiedDate : Option PyDateTime
  eventIdentifier : String
deriving DecidableEq

/-- The `Event` dataclass from models.py. `raw_event` models the
`_raw_event` back-reference to the originating native record. -/
structure Event where
  title : String
  start_time : PyDateTime
  end_time : PyDateTime
  identifier : String
  calendar_name : Option String
  location : Option String
  notes : Option String
  alarms_minutes_offsets : Option (List Int)
  url : Option String
  all_day : Bool
  has_alarms : Bool
  availability : Option Int
  status : Option Int
  organizer : Option String
  attendees : Option (List String)
  last_modified : Option PyDateTime
  recurrence_rule : Option RecurrenceRule
  raw_event : Option EKEvent
deriving DecidableEq

/-- One projected alarm entry on the read path in `Event.from_ekevent`:
`minutes = int(-offset_seconds / 60)`; Python `int()` on the quotient
truncates toward zero. -/
def readAlarmMinutes (offset_seconds : Int) : Int :=
  Int.tdiv (-offset_seconds) 60

/-- Modelled from the spec, for comparison with `readAlarmMinutes`: the read
path the spec describes, `minutes = round(-offset_seconds / 60)`, the store
offset divided by 60, sign-inverted and rounded to the nearest minute
(half away from the floor; the counterexamples below avoid exact halves, so
no tie-breaking convention matters). -/
def specAlarmMinutes (offset_seconds : Int) : Int :=
  Int.fdiv (2 * (-offset_seconds) + 60) 120

/-- `Event.from_ekevent` from models.py. Truthiness is explicit:
`if ekevent.attendees()` and `if ekevent.alarms()` are false for nil and for
an empty array, `if ekevent.URL()` and `if ekevent.organizer()` are false
exactly for nil. Reading `ekevent.calendar().title()` on a nil calendar
raises, modelled as an error. The alarm list accumulator starts at `[]`, so
an event without native alarms still projects `alarms_minutes_offsets` as a
list. -/
def Event.from_ekevent (ekevent : EKEvent) : Except String Event :=
  match (match ekevent.recurrenceRule with
         | some rule => (recurrenceRuleFromEK rule).map some
         | none => .ok none : Except String (Option RecurrenceRule)) with
  | .error msg => .error msg
  | .ok recurrence =>
    match ekevent.calendar with
    | none => .error "AttributeError: calendar is nil"
    | some cal =>
      .ok {
        title := ekevent.title
        start_time := ekevent.startDate
        end_time := ekevent.endDate
        identifier := ekevent.eventIdentifier
        calendar_name := some cal.title
        location := ekevent.location
        notes := ekevent.notes
        alarms_minutes_offsets := some (match ekevent.alarms with
          | some l => if l = [] then [] else l.map (fun alarm => readAlarmMinutes alarm.relativeOffset)
          | none => [])
        url := ekevent.URL
        all_day := ekevent.isAllDay
        has_alarms := false
        availability := some ekevent.availability
        status := some ekevent.status
        organizer := ekevent.organizer.map (fun o => o.name)
        attendees := some (match ekevent.attendees with
          | some l => if l = [] then [] else l.map (fun a => a.name)
          | none => [])
        last_modified := ekevent.lastModifiedDate
        recurrence_rule := recurrence
        raw_event := some ekevent }

/-- `CreateEventRequest` from models.py (`all_day` defaults to false, so an
absent `all_day` and an explicit false are the same request value). -/
structure CreateEventRequest where
  title : String
  start_time : PyDateTime
  end_time : PyDateTime
  calendar_name : Option String
  location : Option String
  notes : Option String
  alarms_minutes_offsets : Option (List Int)
  url : Option String
  all_day : Bool
  recurrence_rule : Option RecurrenceRule
deriving DecidableEq

/-- `UpdateEventRequest` from models.py: every field optional. -/
structure UpdateEventRequest where
  title : Option String
  start_time : Option PyDateTime
  end_time : Option PyDateTime
  calendar_name : Option String
  location : Option String
  notes : Option String
  alarms_minutes_offsets : Option (List Int)
  url : Option String
  all_day : Option Bool
  recurrence_rule : Option RecurrenceRule
deriving DecidableEq

/-- The exceptions raised by the manager layer in ical.py. -/
inductive CalError where
  | noSuchCalendar (calendar_name : String)
  | noSuchEvent (event_id : String)
  | storeError (message : String)
  | validationError (message : String)
deriving DecidableEq

/-- The state of the native event store a manager holds: its calendars, the
default calendar for new events, the persisted events, and whether a
save/remove call reports a failure (`some message`). -/
structure EventStore where
  calendars : List EKCalendar
  defaultCalendarForNewEvents : EKCalendar
  events : List EKEvent
  saveError : Option String
deriving DecidableEq

/-- `eventStore.eventWithIdentifier_`: direct lookup by unique event identifier. -/
def EventStore.eventWithIdentifier (store : EventStore) (identifier : String) : Option EKEvent :=
  store.events.find? (fun e => e.eventIdentifier == identifier)

/-- `CalendarManager._find_calendar_by_name`: linear scan for the first
calendar with an exactly matching title, none when there is no match. -/
def find_calendar_by_name (store : EventStore) (calendar_name : String) : Option EKCalendar :=
  store.calendars.find? (fun c => c.title == calendar_name)

/-- `CalendarManager.find_event_by_id`: a missing identifier is a normal
`none` result, not an error; a found native event is projected. -/
def find_event_by_id (store : EventStore) (identifier : String) : Except String (Option Event) :=
  match store.eventWithIdentifier identifier with
  | none => .ok none
  | some ekevent => (Event.from_ekevent ekevent).map some

/-- One native setter call made on an `EKEvent` while `create_event`
configures the fresh event. -/
inductive SetterCall where
  | setTitle (v : String)
  | setStartDate (v : PyDateTime)
  | setEndDate (v : PyDateTime)
  | setNotes (v : String)
  | setLocation (v : String)
  | setURL (v : String)
  | setAllDay (v : Bool)
  | addAlarm (relativeOffset : Int)
  | setRecurrenceRule (r : EKRecurrenceRule)
  | setCalendar (c : EKCalendar)
deriving DecidableEq

/-- The shared shape of the guarded string-field setters in `create_event`:
`if new_event.field: ekevent.setField_(new_event.field)`; Python truthiness
skips both `None` and the empty string. -/
def strFieldCalls (v : Option String) (mk : String → SetterCall) : List SetterCall :=
  match v with
  | some s => if s = "" then [] else [mk s]
  | none => []

/-- Lines 90-110 of ical.py: the setter calls `create_event` makes on the
fresh native event, in source order, before resolving the calendar. The
alarm loop runs only when `new_event.alarms_minutes_offsets` is truthy, and
mapping over an empty list makes no calls either way; `if new_event.all_day`
skips the setter for false; `if new_event.recurrence_rule` is truthy for any
rule object. -/
def createSetterCalls (new_event : CreateEventRequest) : List SetterCall :=
  [.setTitle new_event.title, .setStartDate new_event.start_time, .setEndDate new_event.end_time]
    ++ strFieldCalls new_event.notes .setNotes
    ++ strFieldCalls new_event.location .setLocation
    ++ strFieldCalls new_event.url .setURL
    ++ (if new_event.all_day then [.setAllDay new_event.all_day] else [])
    ++ (match new_event.alarms_minutes_offsets with
        | some l => l.map (fun minutes => .addAlarm (-60 * minutes))
        | none => [])
    ++ (match new_event.recurrence_rule with
        | some r => [.setRecurrenceRule r.to_ek_recurrence]
        | none => [])

/-- Applying one native setter to an event. `addAlarm_` appends to the alarm
array, creating it when it is still nil. -/
def applySetter (e : EKEvent) : SetterCall → EKEvent
  | .setTitle v => { e with title := v }
  | .setStartDate v => { e with startDate := v }
  | .setEndDate v => { e with endDate := v }
  | .setNotes v => { e with notes := some v }
  | .setLocation v => { e with location := some v }
  | .setURL v => { e with URL := some v }
  | .setAllDay v => { e with isAllDay := v }
  | .addAlarm off => { e with alarms := some ((e.alarms.getD []) ++ [⟨off⟩]) }
  | .setRecurrenceRule r => { e with recurrenceRule := some r }
  | .setCalendar c => { e with calendar := some c }

/-- `EKEvent.eventWithEventStore_`: a fresh native event with every optional
field nil, no calendar, not all-day, and no identifier yet. -/
def freshEKEvent : EKEvent :=
  { title := ""
    startDate := ⟨0, none⟩
    endDate := ⟨0, none⟩
    calendar := none
    location := none
    notes := none
    URL := none
    isAllDay := false
    alarms := none
    recurrenceRule := none
    availability := 0
    status := 0
    organizer := none
    attendees := none
    lastModifiedDate := none
    eventIdentifier := "" }

deriving instance DecidableEq for Except

/-- The outcome of `create_event`: the returned value or raised exception,
together with the native events passed to `saveEvent_span_error_` (the
store mutations attempted). -/
structure CreateResult where
  result : Except CalError Event
  savedEvents : List EKEvent
deriving DecidableEq

/-- The tail of `create_event` (lines 112-137 of ical.py) after the fresh
event is configured: resolve the calendar, set it, save, and project. Python
truthiness on `if new_event.calendar_name` treats both `None` and the empty
string as "use the default calendar"; a truthy name with no exact-title
match raises before any save. -/
def createEventCore (store : EventStore) (calls : List SetterCall)
    (calendar_name : Option String) : CreateResult :=
  let calRes : Except CalError EKCalendar :=
    match calendar_name with
    | some name =>
      if name = "" then .ok store.defaultCalendarForNewEvents
      else
        match find_calendar_by_name store name with
        | some c => .ok c
        | none => .error (.noSuchCalendar name)
    | none => .ok store.defaultCalendarForNewEvents
  match calRes with
  | .error e => ⟨.error e, []⟩
  | .ok calendar =>
    let ekevent := (calls ++ [SetterCall.setCalendar calendar]).foldl applySetter freshEKEvent
    match store.saveError with
    | some msg => ⟨.error (.storeError msg), [ekevent]⟩
    | none =>
      match Event.from_ekevent ekevent with
      | .ok ev => ⟨.ok ev, [ekevent]⟩
      | .error msg => ⟨.error (.validationError msg), [ekevent]⟩

/-- `CalendarManager.create_event` from ical.py. -/
def create_event (store : EventStore) (new_event : CreateEventRequest) : CreateResult :=
  createEventCore store (createSetterCalls new_event) new_event.calendar_name

/-- Lines 157-170 of `update_event`: the `is not None` guarded single-field
setters, in source order. An explicit `False`/empty value is present and is
applied. -/
def applySimpleFields (request : UpdateEventRequest) (e : EKEvent) : EKEvent :=
  let e := match request.title with | some v => { e with title := v } | none => e
  let e := match request.start_time with | some v => { e with startDate := v } | none => e
  let e := match request.end_time with | some v => { e with endDate := v } | none => e
  let e := match request.location with | some v => { e with location := some v } | none => e
  let e := match request.notes with | some v => { e with notes := some v } | none => e
  let e := match request.url with | some v => { e with URL := some v } | none => e
  match request.all_day with | some v => { e with isAllDay := v } | none => e

/-- Lines 172-178 of `update_event`: `if request.calendar_name` is a
truthiness test, so `None` and the empty string both leave the calendar
untouched; a truthy name either resolves or raises. -/
def applyCalendarField (request : UpdateEventRequest) (store : EventStore)
    (e : EKEvent) : Except CalError EKEvent :=
  match request.calendar_name with
  | some name =>
    if name = "" then .ok e
    else
      match find_calendar_by_name store name with
      | some c => .ok { e with calendar := some c }
      | none => .error (.noSuchCalendar name)
  | none => .ok e

/-- Lines 180-192 of `update_event`: recurrence replacement when present, and
unconditional alarm-list replacement when `alarms_minutes_offsets` is present
(including the empty list). The all-day adjustment subtracts 1440 minutes
exactly when `request.all_day` is truthy, i.e. set to true in this request. -/
def applyRecurrenceAndAlarms (request : UpdateEventRequest) (e : EKEvent) : EKEvent :=
  let e := match request.recurrence_rule with
    | some r => { e with recurrenceRule := some r.to_ek_recurrence }
    | none => e
  match request.alarms_minutes_offsets with
  | some offsets =>
    let alarms := offsets.map (fun minutes =>
      let actual_minutes := if request.all_day = some true then minutes - 1440 else minutes
      EKAlarm.mk (-60 * actual_minutes))
    { e with alarms := some alarms }
  | none => e

/-- The full field-application phase of `update_event` (lines 157-192),
mutating the resolved native event before the save. -/
def applyUpdateFields (request : UpdateEventRequest) (store : EventStore)
    (e : EKEvent) : Except CalError EKEvent :=
  (applyCalendarField request store (applySimpleFields request e)).map
    (applyRecurrenceAndAlarms request)

/-- The outcome of `update_event`: the returned value or raised exception,
together with the native events passed to `saveEvent_span_error_`. -/
structure UpdateResult where
  result : Except CalError Event
  savedEvents : List EKEvent
deriving DecidableEq

/-- Lines 194-207 of `update_event`: hand the mutated native event to
`saveEvent_span_error_` (with the future-events span) and project it back. -/
def saveAndProject (store : EventStore) (updated : EKEvent) : UpdateResult :=
  match store.saveError with
  | some msg => ⟨.error (.storeError msg), [updated]⟩
  | none =>
    match Event.from_ekevent updated with
    | .ok ev => ⟨.ok ev, [updated]⟩
    | .error msg => ⟨.error (.validationError msg), [updated]⟩

/-- `CalendarManager.update_event` from ical.py: resolve the identifier
(raising `NoSuchEventException` when it resolves to nothing), apply the
present fields, save, and project the updated native event. -/
def update_event (store : EventStore) (event_id : String)
    (request : UpdateEventRequest) : UpdateResult :=
  match find_event_by_id store event_id with
  | .error msg => ⟨.error (.validationError msg), []⟩
  | .ok none => ⟨.error (.noSuchEvent event_id), []⟩
  | .ok (some existing_event) =>
    match existing_event.raw_event with
    | none => ⟨.error (.noSuchEvent event_id), []⟩
    | some existing_ek_event =>
      match applyUpdateFields request store existing_ek_event with
      | .error err => ⟨.error err, []⟩
      | .ok updated => saveAndProject store updated

/-- The outcome of `delete_event`: success or raised exception, together with
the native events passed to `removeEvent_span_error_`. -/
structure DeleteResult where
  result : Except CalError Bool
  removedEvents : List EKEvent
deriving DecidableEq

/-- `CalendarManager.delete_event` from ical.py: resolve the identifier
(raising `NoSuchEventException` when it resolves to nothing), then remove. -/
def delete_event (store : EventStore) (event_id : String) : DeleteResult :=
  match find_event_by_id store event_id with
  | .error msg => ⟨.error (.validationError msg), []⟩
  | .ok none => ⟨.error (.noSuchEvent event_id), []⟩
  | .ok (some existing_event) =>
    match existing_event.raw_event with
    | none => ⟨.error (.noSuchEvent event_id), []⟩
    | some ek =>
      match store.saveError with
      | some msg => ⟨.error (.storeError msg), [ek]⟩
      | none => ⟨.ok true, [ek]⟩

/-- Whether a setter call is `setAllDay_`. -/
def isSetAllDayCall : SetterCall → Bool
  | .setAllDay _ => true
  | _ => false

/-! ### Concrete fixtures for witnesses and counterexamples -/

/-- Fixture calendar titled "Work". -/
def workCalendar : EKCalendar := ⟨"Work"⟩

/-- Fixture: a persisted all-day native event with identifier "evt1". -/
def allDayEKEvent : EKEvent :=
  { title := "Conference"
    startDate := ⟨86400, none⟩
    endDate := ⟨172800, none⟩
    calendar := some workCalendar
    location := none
    notes := none
    URL := none
    isAllDay := true
    alarms := some []
    recurrenceRule := none
    availability := 0
    status := 0
    organizer := none
    attendees := none
    lastModifiedDate := none
    eventIdentifier := "evt1" }

/-- Fixture: a persisted native event with every optional field nil, in
particular no alarm array, with identifier "evt4". -/
def bareEKEvent : EKEvent :=
  { title := "Dentist"
    startDate := ⟨3600, none⟩
    endDate := ⟨7200, none⟩
    calendar := some workCalendar
    location := none
    notes := none
    URL := none
    isAllDay := false
    alarms := none
    recurrenceRule := none
    availability := 0
    status := 0
    organizer := none
    attendees := none
    lastModifiedDate := none
    eventIdentifier := "evt4" }

/-- Fixture: a persisted native event with identifier "evt3" carrying one
native alarm whose relative offset, -100 seconds, is not a whole number of
minutes. -/
def oddAlarmEKEvent : EKEvent :=
  { bareEKEvent with alarms := some [⟨-100⟩], eventIdentifier := "evt3" }

/-- Fixture store: one calendar ("Work", also the default), three persisted
events, and a store whose save/remove calls succeed. -/
def fixtureStore : EventStore :=
  { calendars := [workCalendar]
    defaultCalendarForNewEvents := workCalendar
    events := [allDayEKEvent, oddAlarmEKEvent, bareEKEvent]
    saveError := none }

/-- An `UpdateEventRequest` with every field absent. -/
def emptyUpdateRequest : UpdateEventRequest :=
  { title := none
    start_time := none
    end_time := none
    calendar_name := none
    location := none
    notes := none
    alarms_minutes_offsets := none
    url := none
    all_day := none
    recurrence_rule := none }

/-- Update request replacing the alarms with a single 120-minute offset while
leaving `all_day` (and everything else) absent. -/
def alarmsOnlyUpdateRequest : UpdateEventRequest :=
  { emptyUpdateRequest with alarms_minutes_offsets := some [120] }

/-- Update request whose only present field is the empty-string calendar
name. -/
def emptyCalendarNameUpdateRequest : UpdateEventRequest :=
  { emptyUpdateRequest with calendar_name := some "" }

/-- Update request whose only present field is a calendar name ("Gym") that
the fixture store does not contain. -/
def gymCalendarUpdateRequest : UpdateEventRequest :=
  { emptyUpdateRequest with calendar_name := some "Gym" }

/-- Update request exercising explicit falsy values: empty-string location
and notes, `all_day = false`, an empty alarm list, and a new title, against
the fixture calendar "Work". -/
def falsyFieldsUpdateRequest : UpdateEventRequest :=
  { title := some "New title"
    start_time := none
    end_time := none
    calendar_name := some "Work"
    location := some ""
    notes := some ""
    alarms_minutes_offsets := some []
    url := none
    all_day := some false
    recurrence_rule := none }

/-- Create request naming the empty-string calendar. -/
def emptyCalendarNameCreateRequest : CreateEventRequest :=
  { title := "Standup"
    start_time := ⟨3600, none⟩
    end_time := ⟨7200, none⟩
    calendar_name := some ""
    location := none
    notes := none
    alarms_minutes_offsets := none
    url := none
    all_day := false
    recurrence_rule := none }

/-- Create request naming a calendar ("Gym") absent from the fixture store. -/
def gymCalendarCreateRequest : CreateEventRequest :=
  { emptyCalendarNameCreateRequest with calendar_name := some "Gym" }

/-- The degenerate but constructible recurrence rule with occurrence count 0
and an empty day-of-week list. -/
def degenerateRecurrenceRule : RecurrenceRule :=
  ⟨.daily, 1, none, some 0, some []⟩

/-- The domain projection of `oddAlarmEKEvent`. -/
def oddAlarmEvent : Event :=
  { title := "Dentist"
    start_time := ⟨3600, none⟩
    end_time := ⟨7200, none⟩
    identifier := "evt3"
    calendar_name := some "Work"
    location := none
    notes := none
    alarms_minutes_offsets := some [1]
    url := none
    all_day := false
    has_alarms := false
    availability := some 0
    status := some 0
    organizer := none
    attendees := some []
    last_modified := none
    recurrence_rule := none
    raw_event := some oddAlarmEKEvent }

/-- The native event obtained by applying `falsyFieldsUpdateRequest` to
`allDayEKEvent`. -/
def falsyUpdatedEKEvent : EKEvent :=
  { allDayEKEvent with
    title := "New title"
    location := some ""
    notes := some ""
    isAllDay := false
    alarms := some []
    calendar := some workCalendar }

/-- The domain projection of `bareEKEvent`. -/
def bareEvent : Event :=
  { oddAlarmEvent with
    identifier := "evt4"
    alarms_minutes_offsets := some []
    raw_event := some bareEKEvent }

/-! ### Helper lemmas -/

theorem frequency_ofValue_value (f : Frequency) : Frequency.ofValue f.value = some f := by
  cases f <;> rfl

theorem weekdayFromEKDay_value (w : Weekday) :
    weekdayFromEKDay ⟨w.value, 0⟩ = Except.ok w := by
  cases w <;> rfl

theorem mapM_loop_weekdayFromEKDay (l : List Weekday) (acc : List Weekday) :
    List.mapM.loop weekdayFromEKDay
        (l.map (fun day => (⟨day.value, 0⟩ : EKRecurrenceDayOfWeek))) acc =
      Except.ok (acc.reverse ++ l) := by
  induction l generalizing acc with
  | nil => simp [List.mapM.loop, pure, Except.pure]
  | cons d l ih =>
    simp [List.mapM.loop, weekdayFromEKDay_value, Bind.bind, Except.bind, ih]

theorem mapM_weekdayFromEKDay (l : List Weekday) :
    (l.map (fun day => (⟨day.value, 0⟩ : EKRecurrenceDayOfWeek))).mapM weekdayFromEKDay =
      Except.ok l := by
  simpa [List.mapM] using mapM_loop_weekdayFromEKDay l []

/-- Inversion of a successful `Event.from_ekevent`: every projected field in
terms of the native event. -/
theorem from_ekevent_fields (e : EKEvent) (ev : Event)
    (hok : Event.from_ekevent e = Except.ok ev) :
    ev.title = e.title ∧
    ev.start_time = e.startDate ∧
    ev.end_time = e.endDate ∧
    ev.identifier = e.eventIdentifier ∧
    ev.location = e.location ∧
    ev.notes = e.notes ∧
    ev.url = e.URL ∧
    ev.all_day = e.isAllDay ∧
    ev.organizer = e.organizer.map (fun o => o.name) ∧
    ev.last_modified = e.lastModifiedDate ∧
    ev.availability = some e.availability ∧
    ev.status = some e.status ∧
    ev.raw_event = some e ∧
    (e.recurrenceRule = none → ev.recurrence_rule = none) ∧
    ev.attendees = some (match e.attendees with
      | some l => if l = [] then [] else l.map (fun a => a.name)
      | none => []) ∧
    ev.alarms_minutes_offsets = some (match e.alarms with
      | some l => if l = [] then [] else l.map (fun a => readAlarmMinutes a.relativeOffset)
      | none => []) := by
  unfold Event.from_ekevent at hok
  split at hok
  · simp at hok
  · rename_i recurrence heq
    split at hok
    · simp at hok
    · injection hok with hok
      subst hok
      refine ⟨rfl, rfl, rfl, rfl, rfl, rfl, rfl, rfl, rfl, rfl, rfl, rfl, rfl, ?_, rfl, rfl⟩
      intro h0
      rw [h0] at heq
      injection heq with heq
      simp [← heq]

/-- Normal form of the `is not None` guarded single-field setters of
`update_event`. -/
theorem applySimpleFields_eq (request : UpdateEventRequest) (e : EKEvent) :
    applySimpleFields request e =
      { e with
        title := request.title.getD e.title
        startDate := request.start_time.getD e.startDate
        endDate := request.end_time.getD e.endDate
        location := (request.location.map some).getD e.location
        notes := (request.notes.map some).getD e.notes
        URL := (request.url.map some).getD e.URL
        isAllDay := request.all_day.getD e.isAllDay } := by
  unfold applySimpleFields
  rcases request.title with _ | t <;> rcases request.start_time with _ | st <;>
    rcases request.end_time with _ | et <;> rcases request.location with _ | loc <;>
    rcases request.notes with _ | n <;> rcases request.url with _ | u <;>
    rcases request.all_day with _ | ad <;> rfl

/-- Normal form of the recurrence and alarm phase of `update_event`. -/
theorem applyRecurrenceAndAlarms_eq (request : UpdateEventRequest) (e : EKEvent) :
    applyRecurrenceAndAlarms request e =
      { e with
        recurrenceRule :=
          (request.recurrence_rule.map (fun r => some r.to_ek_recurrence)).getD e.recurrenceRule
        alarms := (request.alarms_minutes_offsets.map (fun offsets =>
          some (offsets.map (fun m =>
            EKAlarm.mk (-60 * (if request.all_day = some true then m - 1440 else m)))))).getD
          e.alarms } := by
  unfold applyRecurrenceAndAlarms
  rcases request.recurrence_rule with _ | r <;>
    rcases request.alarms_minutes_offsets with _ | l <;> rfl

/-- A successful calendar phase either left the calendar untouched (absent or
empty-string name) or set it to the resolved calendar of a truthy name. -/
theorem applyCalendarField_ok_cases (request : UpdateEventRequest) (store : EventStore)
    (e e2 : EKEvent) (h : applyCalendarField request store e = Except.ok e2) :
    ((request.calendar_name = none ∨ request.calendar_name = some "") ∧ e2 = e) ∨
    (∃ name c, request.calendar_name = some name ∧ name ≠ "" ∧
      find_calendar_by_name store name = some c ∧ e2 = { e with calendar := some c }) := by
  unfold applyCalendarField at h
  split at h
  · rename_i name hname
    split at h
    · rename_i hn
      injection h with h
      subst hn
      exact Or.inl ⟨Or.inr hname, h.symm⟩
    · rename_i hn
      split at h
      · rename_i c hfind
        injection h with h
        exact Or.inr ⟨name, c, hname, hn, hfind, h.symm⟩
      · simp at h
  · rename_i hname
    injection h with h
    exact Or.inl ⟨Or.inl hname, h.symm⟩

/-- Whenever `update_event` hands exactly one native event to the store, that
event is the successful result of the field-application phase on some
resolved native event. -/
theorem update_event_savedEvents_apply (store : EventStore) (event_id : String)
    (request : UpdateEventRequest) (e2 : EKEvent)
    (hsaved : (update_event store event_id request).savedEvents = [e2]) :
    ∃ e, applyUpdateFields request store e = Except.ok e2 := by
  have hsave : ∀ u : EKEvent, (saveAndProject store u).savedEvents = [u] := by
    intro u
    unfold saveAndProject
    rcases store.saveError with _ | msg
    · rcases Event.from_ekevent u with msg2 | ev2 <;> rfl
    · rfl
  unfold update_event at hsaved
  split at hsaved
  · simp at hsaved
  · simp at hsaved
  · split at hsaved
    · simp at hsaved
    · split at hsaved
      · simp at hsaved
      · rw [hsave] at hsaved
        simp only [List.cons.injEq, and_true] at hsaved
        subst hsaved
        exact ⟨_, by assumption⟩

/-- The string-field setter guards of `create_event` never emit a
`setAllDay_` call. -/
theorem any_isSetAllDay_strFieldCalls (v : Option String) (mk : String → SetterCall)
    (hmk : ∀ s, isSetAllDayCall (mk s) = false) :
    (strFieldCalls v mk).any isSetAllDayCall = false := by
  rcases v with _ | s
  · rfl
  · by_cases hs : s = "" <;> simp [strFieldCalls, hs, hmk]

/-- The alarm loop of `create_event` never emits a `setAllDay_` call. -/
theorem any_isSetAllDay_alarmCalls (v : Option (List Int)) :
    (match v with
     | some l => l.map (fun minutes => SetterCall.addAlarm (-60 * minutes))
     | none => ([] : List SetterCall)).any isSetAllDayCall = false := by
  rcases v with _ | l
  · rfl
  · simp [List.any_map, Function.comp, isSetAllDayCall]

/-- The recurrence guard of `create_event` never emits a `setAllDay_` call. -/
theorem any_isSetAllDay_recurrenceCalls (v : Option RecurrenceRule) :
    (match v with
     | some r => [SetterCall.setRecurrenceRule r.to_ek_recurrence]
     | none => ([] : List SetterCall)).any isSetAllDayCall = false := by
  rcases v with _ | r <;> rfl

/-! ### Claims -/

/-- C1: for every `RecurrenceRule` construction, setting both `end_date` and
`occurrence_count` fails with a validation error (the construction is pure,
so no store interaction occurs); with a valid interval, setting exactly one
or neither succeeds. -/
theorem recurrenceRule_end_conditions_validation (freq : Frequency) (interval : Int)
    (end_date : Option PyDateTime) (occurrence_count : Option Int)
    (days : Option (List Weekday)) :
    (end_date.isSome ∧ occurrence_count.isSome →
      ∃ msg, mkRecurrenceRule freq interval end_date occurrence_count days =
        Except.error msg) ∧
    (1 ≤ interval → ¬(end_date.isSome ∧ occurrence_count.isSome) →
      mkRecurrenceRule freq interval end_date occurrence_count days =
        Except.ok ⟨freq, interval, end_date, occurrence_count, days⟩) := by
  constructor
  · rintro ⟨h1, h2⟩
    unfold mkRecurrenceRule
    split
    · exact ⟨_, rfl⟩
    · rw [if_pos (by simp [h1, h2])]
      exact ⟨_, rfl⟩
  · intro hge hnot
    unfold mkRecurrenceRule
    rw [if_neg (by omega), if_neg (by simpa [Bool.and_eq_true] using hnot)]

/-- C1 witness: both-set fails; count-only, neither, and date-only succeed. -/
theorem recurrenceRule_end_conditions_validation_witness :
    (∃ msg, mkRecurrenceRule .daily 1 (some ⟨0, none⟩) (some 5) none =
      Except.error msg) ∧
    mkRecurrenceRule .daily 1 none (some 5) none =
      Except.ok ⟨.daily, 1, none, some 5, none⟩ ∧
    mkRecurrenceRule .daily 1 none none none =
      Except.ok ⟨.daily, 1, none, none, none⟩ ∧
    mkRecurrenceRule .daily 1 (some ⟨0, none⟩) none none =
      Except.ok ⟨.daily, 1, some ⟨0, none⟩, none, none⟩ := by
  refine ⟨(recurrenceRule_end_conditions_validation .daily 1 (some ⟨0, none⟩) (some 5) none).1
      (by simp),
    (recurrenceRule_end_conditions_validation .daily 1 none (some 5) none).2
      (by norm_num) (by simp),
    (recurrenceRule_end_conditions_validation .daily 1 none none none).2
      (by norm_num) (by simp),
    (recurrenceRule_end_conditions_validation .daily 1 (some ⟨0, none⟩) none none).2
      (by norm_num) (by simp)⟩

/-- C7: an identifier that resolves to no event yields `Except.ok none` (a
normal absent result) from `find_event_by_id`, while `update_event` and
`delete_event` on the same identifier raise `NoSuchEventException`. -/
theorem missing_event_asymmetry (store : EventStore) (identifier : String)
    (request : UpdateEventRequest)
    (hmissing : store.eventWithIdentifier identifier = none) :
    find_event_by_id store identifier = Except.ok none ∧
    (update_event store identifier request).result =
      Except.error (CalError.noSuchEvent identifier) ∧
    (delete_event store identifier).result =
      Except.error (CalError.noSuchEvent identifier) := by
  have hfind : find_event_by_id store identifier = Except.ok none := by
    unfold find_event_by_id
    rw [hmissing]
  refine ⟨hfind, ?_, ?_⟩
  · unfold update_event
    rw [hfind]
  · unfold delete_event
    rw [hfind]

/-- C7 witness at the fixture store and a never-issued identifier. -/
theorem missing_event_asymmetry_witness :
    find_event_by_id fixtureStore "ghost" = Except.ok none ∧
    (update_event fixtureStore "ghost" emptyUpdateRequest).result =
      Except.error (CalError.noSuchEvent "ghost") ∧
    (delete_event fixtureStore "ghost").result =
      Except.error (CalError.noSuchEvent "ghost") :=
  missing_event_asymmetry fixtureStore "ghost" emptyUpdateRequest (by decide)

/-- C9 counterexample: the native timestamp 0 and the offset-bearing
ISO-8601 string with wall clock 0 and offset +00:00 denote the same instant,
yet coerce to different values — a naive versus an aware datetime — which
Python equality also distinguishes. -/
theorem convert_datetime_shape_counterexample :
    DTValue.instant 0 (.nativeDate 0) = DTValue.instant 0 (.isoString ⟨0, some 0⟩) ∧
    convert_datetime 0 (.nativeDate 0) ≠ convert_datetime 0 (.isoString ⟨0, some 0⟩) ∧
    pyDateTimeEq ⟨0, none⟩ ⟨0, some 0⟩ = false := by decide

/-- C9 (amended): coercion is idempotent on every input shape, and the three
recognized shapes coerce to the same value whenever the ISO string and the
datetime are naive local wall-clock renderings of the native timestamp
instant; an offset-bearing ISO string instead yields an aware datetime. -/
theorem convert_datetime_idempotent_naive_agnostic (localOff t : Int) (v : DTValue) :
    convert_datetime localOff (convert_datetime localOff v) =
      convert_datetime localOff v ∧
    DTValue.instant localOff (.nativeDate t) = some t ∧
    DTValue.instant localOff (.isoString ⟨t + localOff, none⟩) = some t ∧
    DTValue.instant localOff (.pyDatetime ⟨t + localOff, none⟩) = some t ∧
    convert_datetime localOff (.nativeDate t) = .pyDatetime ⟨t + localOff, none⟩ ∧
    convert_datetime localOff (.isoString ⟨t + localOff, none⟩) =
      .pyDatetime ⟨t + localOff, none⟩ ∧
    convert_datetime localOff (.pyDatetime ⟨t + localOff, none⟩) =
      .pyDatetime ⟨t + localOff, none⟩ := by
  refine ⟨?_, rfl, ?_, ?_, rfl, rfl, rfl⟩
  · cases v <;> rfl
  · show some (t + localOff - localOff) = some t
    rw [add_sub_cancel_right]
  · show some (t + localOff - localOff) = some t
    rw [add_sub_cancel_right]

/-- C10: on the create path, a present-but-falsy optional field — empty
notes, location or url, an empty alarm list, or a false `all_day` — is
skipped exactly as if it were absent: the whole create outcome coincides
with the absent-field request, and no `setAllDay_` call is made when
`all_day` is false. -/
theorem create_event_falsy_fields_skipped (store : EventStore) (req : CreateEventRequest) :
    create_event store { req with notes := some "" } =
      create_event store { req with notes := none } ∧
    create_event store { req with location := some "" } =
      create_event store { req with location := none } ∧
    create_event store { req with url := some "" } =
      create_event store { req with url := none } ∧
    create_event store { req with alarms_minutes_offsets := some [] } =
      create_event store { req with alarms_minutes_offsets := none } ∧
    (createSetterCalls { req with all_day := false }).any isSetAllDayCall = false := by
  refine ⟨rfl, rfl, rfl, rfl, ?_⟩
  unfold createSetterCalls
  simp only [List.any_append, Bool.or_eq_false_iff]
  exact ⟨⟨⟨⟨⟨⟨rfl,
    any_isSetAllDay_strFieldCalls _ _ (fun s => rfl)⟩,
    any_isSetAllDay_strFieldCalls _ _ (fun s => rfl)⟩,
    any_isSetAllDay_strFieldCalls _ _ (fun s => rfl)⟩,
    rfl⟩,
    any_isSetAllDay_alarmCalls _⟩,
    any_isSetAllDay_recurrenceCalls _⟩

/-- C2 counterexample: replacing the alarms of the stored all-day event
"evt1" with offsets [120] while leaving `all_day` absent in the update
request stores the native relative offset -7200 = -60 * 120 — the claimed
all-day adjustment -60 * (120 - 1440) is not applied, because the code keys
the subtraction on `request.all_day` being truthy, not on the event being
all-day. -/
theorem update_allday_alarm_counterexample :
    allDayEKEvent.isAllDay = true ∧
    alarmsOnlyUpdateRequest.alarms_minutes_offsets = some [120] ∧
    alarmsOnlyUpdateRequest.all_day = none ∧
    (update_event fixtureStore "evt1" alarmsOnlyUpdateRequest).savedEvents =
      [{ allDayEKEvent with alarms := some [⟨-60 * 120⟩] }] ∧
    (-60 * 120 : Int) ≠ -60 * (120 - 1440) := by decide

/-- C2 (amended): when `update_event` hands a mutated native event to the
store and the request supplied an alarm list, each stored relative offset is
-60 * (m - 1440) when the request itself sets `all_day` to true, and
-60 * m otherwise — regardless of the stored event all-day flag. -/
theorem update_event_alarm_offset_rule (store : EventStore) (event_id : String)
    (request : UpdateEventRequest) (e2 : EKEvent) (offsets : List Int)
    (halarms : request.alarms_minutes_offsets = some offsets)
    (hsaved : (update_event store event_id request).savedEvents = [e2]) :
    e2.alarms = some (offsets.map (fun m =>
      EKAlarm.mk (-60 * (if request.all_day = some true then m - 1440 else m)))) := by
  obtain ⟨e, happly⟩ := update_event_savedEvents_apply store event_id request e2 hsaved
  unfold applyUpdateFields at happly
  rcases hy : applyCalendarField request store (applySimpleFields request e) with msg | y
  · rw [hy] at happly
    simp [Except.map] at happly
  · rw [hy] at happly
    simp only [Except.map] at happly
    injection happly with happly
    subst happly
    rw [applyRecurrenceAndAlarms_eq]
    simp [halarms]

/-- C2 witness: the native event saved for the fixture update request
carries exactly the unadjusted -7200-second alarm. -/
theorem update_event_alarm_offset_rule_witness :
    ({ allDayEKEvent with alarms := some [⟨-7200⟩] } : EKEvent).alarms =
      some ([120].map (fun m => EKAlarm.mk
        (-60 * (if alarmsOnlyUpdateRequest.all_day = some true then m - 1440 else m)))) :=
  update_event_alarm_offset_rule fixtureStore "evt1" alarmsOnlyUpdateRequest
    { allDayEKEvent with alarms := some [⟨-7200⟩] } [120] rfl (by decide)

/-- C3 counterexample: a present empty-string `calendar_name` in an update
request is not applied — the update succeeds and the event is saved with its
calendar untouched — while the same request shape with any other absent
calendar name raises `NoSuchCalendarException`; so "a present field is
applied" fails at the empty string. -/
theorem update_calendar_empty_string_counterexample :
    emptyCalendarNameUpdateRequest.calendar_name = some "" ∧
    find_calendar_by_name fixtureStore "" = none ∧
    (update_event fixtureStore "evt1" emptyCalendarNameUpdateRequest).savedEvents =
      [allDayEKEvent] ∧
    (update_event fixtureStore "evt1" gymCalendarUpdateRequest).result =
      Except.error (CalError.noSuchCalendar "Gym") := by decide

/-- C3 (amended): a successful `update_event` field phase applies exactly
the present fields — including `all_day = false` and a present (possibly
empty) alarm list, which unconditionally replaces the full alarm set — and
leaves absent fields untouched; the one exception is `calendar_name`, which
is tested for truthiness, so a present empty-string calendar name is treated
as unset. -/
theorem update_event_present_field_semantics (request : UpdateEventRequest)
    (store : EventStore) (e e2 : EKEvent)
    (happly : applyUpdateFields request store e = Except.ok e2) :
    e2.title = request.title.getD e.title ∧
    e2.startDate = request.start_time.getD e.startDate ∧
    e2.endDate = request.end_time.getD e.endDate ∧
    e2.location = (request.location.map some).getD e.location ∧
    e2.notes = (request.notes.map some).getD e.notes ∧
    e2.URL = (request.url.map some).getD e.URL ∧
    e2.isAllDay = request.all_day.getD e.isAllDay ∧
    e2.recurrenceRule =
      (request.recurrence_rule.map (fun r => some r.to_ek_recurrence)).getD
        e.recurrenceRule ∧
    e2.alarms = (request.alarms_minutes_offsets.map (fun offsets =>
      some (offsets.map (fun m =>
        EKAlarm.mk (-60 * (if request.all_day = some true then m - 1440 else m)))))).getD
      e.alarms ∧
    (match request.calendar_name with
     | some name =>
       if name = "" then e2.calendar = e.calendar
       else find_calendar_by_name store name = e2.calendar
     | none => e2.calendar = e.calendar) := by
  unfold applyUpdateFields at happly
  rcases hy : applyCalendarField request store (applySimpleFields request e) with msg | y
  · rw [hy] at happly
    simp [Except.map] at happly
  · rw [hy] at happly
    simp only [Except.map] at happly
    injection happly with happly
    subst happly
    rcases applyCalendarField_ok_cases request store _ y hy with
      ⟨hname, rfl⟩ | ⟨name, c, hname, hn, hfind, rfl⟩
    · rw [applyRecurrenceAndAlarms_eq, applySimpleFields_eq]
      refine ⟨rfl, rfl, rfl, rfl, rfl, rfl, rfl, rfl, rfl, ?_⟩
      rcases hname with hname | hname <;> simp [hname]
    · rw [applyRecurrenceAndAlarms_eq, applySimpleFields_eq]
      refine ⟨rfl, rfl, rfl, rfl, rfl, rfl, rfl, rfl, rfl, ?_⟩
      rw [hname]
      simp [hn, hfind]

/-- C3 witness: the falsy-fields update request against the stored all-day
event applies the new title, sets location and notes to the empty string,
clears the all-day flag, replaces the alarms with the empty list, and
resolves the "Work" calendar. -/
theorem update_event_present_field_semantics_witness :
    falsyUpdatedEKEvent.title =
      falsyFieldsUpdateRequest.title.getD allDayEKEvent.title ∧
    falsyUpdatedEKEvent.startDate =
      falsyFieldsUpdateRequest.start_time.getD allDayEKEvent.startDate ∧
    falsyUpdatedEKEvent.endDate =
      falsyFieldsUpdateRequest.end_time.getD allDayEKEvent.endDate ∧
    falsyUpdatedEKEvent.location =
      (falsyFieldsUpdateRequest.location.map some).getD allDayEKEvent.location ∧
    falsyUpdatedEKEvent.notes =
      (falsyFieldsUpdateRequest.notes.map some).getD allDayEKEvent.notes ∧
    falsyUpdatedEKEvent.URL =
      (falsyFieldsUpdateRequest.url.map some).getD allDayEKEvent.URL ∧
    falsyUpdatedEKEvent.isAllDay =
      falsyFieldsUpdateRequest.all_day.getD allDayEKEvent.isAllDay ∧
    falsyUpdatedEKEvent.recurrenceRule =
      (falsyFieldsUpdateRequest.recurrence_rule.map (fun r => some r.to_ek_recurrence)).getD
        allDayEKEvent.recurrenceRule ∧
    falsyUpdatedEKEvent.alarms =
      (falsyFieldsUpdateRequest.alarms_minutes_offsets.map (fun offsets =>
        some (offsets.map (fun m =>
          EKAlarm.mk (-60 *
            (if falsyFieldsUpdateRequest.all_day = some true then m - 1440 else m)))))).getD
        allDayEKEvent.alarms ∧
    (match falsyFieldsUpdateRequest.calendar_name with
     | some name =>
       if name = "" then falsyUpdatedEKEvent.calendar = allDayEKEvent.calendar
       else find_calendar_by_name fixtureStore name = falsyUpdatedEKEvent.calendar
     | none => falsyUpdatedEKEvent.calendar = allDayEKEvent.calendar) :=
  update_event_present_field_semantics falsyFieldsUpdateRequest fixtureStore
    allDayEKEvent falsyUpdatedEKEvent (by decide)

/-- C4 counterexample: the constructible rule with occurrence count 0 and an
empty day-of-week list — both Python-falsy — loses both fields on the native
round trip: neither end condition survives (the claim requires the single
set one, occurrence_count, to survive) and the empty day list comes back
absent. -/
theorem recurrence_round_trip_counterexample :
    mkRecurrenceRule .daily 1 none (some 0) (some []) =
      Except.ok degenerateRecurrenceRule ∧
    recurrenceRuleFromEK degenerateRecurrenceRule.to_ek_recurrence =
      Except.ok ⟨.daily, 1, none, none, none⟩ ∧
    degenerateRecurrenceRule.occurrence_count = some 0 ∧
    (⟨.daily, 1, none, none, none⟩ : RecurrenceRule).occurrence_count = none ∧
    degenerateRecurrenceRule.days_of_week = some [] ∧
    (⟨.daily, 1, none, none, none⟩ : RecurrenceRule).days_of_week = none := by
  decide

/-- C4 (amended): for every valid rule whose interval is at least 1, whose
occurrence count (when set) is nonzero, whose day-of-week list (when set) is
nonempty, and whose end conditions are mutually exclusive, the native round
trip reproduces the rule exactly — frequency, interval, days of week, and
whichever single end condition was set. -/
theorem recurrence_round_trip (r : RecurrenceRule)
    (hint : 1 ≤ r.interval)
    (hocc : r.occurrence_count ≠ some 0)
    (hdays : r.days_of_week ≠ some [])
    (hexcl : ¬(r.end_date.isSome ∧ r.occurrence_count.isSome)) :
    recurrenceRuleFromEK r.to_ek_recurrence = Except.ok r := by
  obtain ⟨freq, interval, ed, oc, dw⟩ := r
  simp only at hint hocc hdays hexcl
  have hi : ¬interval < 1 := by omega
  rcases dw with _ | l <;> rcases ed with _ | d <;> rcases oc with _ | n
  · simp [RecurrenceRule.to_ek_recurrence, recurrenceRuleFromEK,
      frequency_ofValue_value, mkRecurrenceRule, hi,
      EKRecurrenceEnd.withEndDate, EKRecurrenceEnd.withOccurrenceCount]
  · have hn : n ≠ 0 := fun h => hocc (by rw [h])
    simp [RecurrenceRule.to_ek_recurrence, recurrenceRuleFromEK,
      frequency_ofValue_value, mkRecurrenceRule, hi, hn,
      EKRecurrenceEnd.withEndDate, EKRecurrenceEnd.withOccurrenceCount]
  · simp [RecurrenceRule.to_ek_recurrence, recurrenceRuleFromEK,
      frequency_ofValue_value, mkRecurrenceRule, hi,
      EKRecurrenceEnd.withEndDate, EKRecurrenceEnd.withOccurrenceCount]
  · simp at hexcl
  · have hl : l ≠ [] := fun h => hdays (by rw [h])
    simp [RecurrenceRule.to_ek_recurrence, recurrenceRuleFromEK,
      frequency_ofValue_value, List.mapM, mapM_loop_weekdayFromEKDay, Except.map,
      mkRecurrenceRule, hi, hl,
      EKRecurrenceEnd.withEndDate, EKRecurrenceEnd.withOccurrenceCount]
  · have hn : n ≠ 0 := fun h => hocc (by rw [h])
    have hl : l ≠ [] := fun h => hdays (by rw [h])
    simp [RecurrenceRule.to_ek_recurrence, recurrenceRuleFromEK,
      frequency_ofValue_value, List.mapM, mapM_loop_weekdayFromEKDay, Except.map,
      mkRecurrenceRule, hi, hn, hl,
      EKRecurrenceEnd.withEndDate, EKRecurrenceEnd.withOccurrenceCount]
  · have hl : l ≠ [] := fun h => hdays (by rw [h])
    simp [RecurrenceRule.to_ek_recurrence, recurrenceRuleFromEK,
      frequency_ofValue_value, List.mapM, mapM_loop_weekdayFromEKDay, Except.map,
      mkRecurrenceRule, hi, hl,
      EKRecurrenceEnd.withEndDate, EKRecurrenceEnd.withOccurrenceCount]
  · simp at hexcl

/-- C4 witness: a weekly rule with interval 2, occurrence count 3, and days
Monday and Friday round-trips exactly. -/
theorem recurrence_round_trip_witness :
    recurrenceRuleFromEK (RecurrenceRule.to_ek_recurrence
        ⟨.weekly, 2, none, some 3, some [.monday, .friday]⟩) =
      Except.ok ⟨.weekly, 2, none, some 3, some [.monday, .friday]⟩ :=
  recurrence_round_trip ⟨.weekly, 2, none, some 3, some [.monday, .friday]⟩
    (by decide) (by decide) (by decide) (by decide)

/-- C5 counterexample: a native alarm with relative offset -100 seconds
projects to int(100 / 60) = 1 minute, while the claimed
round(-offset / 60) is 2. -/
theorem read_alarm_rounding_counterexample :
    oddAlarmEKEvent.alarms = some [⟨-100⟩] ∧
    Event.from_ekevent oddAlarmEKEvent = Except.ok oddAlarmEvent ∧
    oddAlarmEvent.alarms_minutes_offsets = some [1] ∧
    specAlarmMinutes (-100) = 2 ∧
    (1 : Int) ≠ 2 := by decide

/-- C5 (amended): each projected alarm entry is the store offset divided by
60 and sign-inverted, truncated toward zero (Python int()), rather than
rounded to the nearest minute; the two agree on whole-minute offsets. -/
theorem read_alarm_minutes_truncation (e : EKEvent) (ev : Event) (l : List EKAlarm)
    (halarms : e.alarms = some l)
    (hok : Event.from_ekevent e = Except.ok ev) :
    ev.alarms_minutes_offsets =
      some (l.map (fun a => Int.tdiv (-a.relativeOffset) 60)) := by
  obtain ⟨-, -, -, -, -, -, -, -, -, -, -, -, -, -, -, halm⟩ :=
    from_ekevent_fields e ev hok
  rw [halarms] at halm
  by_cases hl : l = []
  · subst hl
    simpa using halm
  · simp only [hl] at halm
    simpa [readAlarmMinutes] using halm

/-- C5 witness: the fixture event with the -100-second alarm projects the
truncated entry. -/
theorem read_alarm_minutes_truncation_witness :
    oddAlarmEvent.alarms_minutes_offsets =
      some (([⟨-100⟩] : List EKAlarm).map (fun a => Int.tdiv (-a.relativeOffset) 60)) :=
  read_alarm_minutes_truncation oddAlarmEKEvent oddAlarmEvent [⟨-100⟩] rfl (by decide)

/-- C6 counterexample: a create request naming the empty-string calendar,
with no calendar of that exact title in the store, does not raise
`NoSuchCalendarException` — it falls back to the default calendar and
invokes the store save, so a mutation does occur. -/
theorem create_event_empty_calendar_name_counterexample :
    emptyCalendarNameCreateRequest.calendar_name = some "" ∧
    find_calendar_by_name fixtureStore "" = none ∧
    (create_event fixtureStore emptyCalendarNameCreateRequest).result ≠
      Except.error (CalError.noSuchCalendar "") ∧
    (create_event fixtureStore emptyCalendarNameCreateRequest).savedEvents ≠ [] := by
  decide

/-- C6 (amended): a create request naming a nonempty calendar name with no
exact-title match raises `NoSuchCalendarException` and performs no store
mutation: no save call is made. -/
theorem create_event_missing_calendar (store : EventStore) (req : CreateEventRequest)
    (name : String)
    (hname : req.calendar_name = some name)
    (hnonempty : name ≠ "")
    (hfind : find_calendar_by_name store name = none) :
    create_event store req =
      ⟨Except.error (CalError.noSuchCalendar name), []⟩ := by
  unfold create_event createEventCore
  rw [hname]
  simp [hnonempty, hfind]

/-- C6 witness: creating in the absent calendar "Gym" fails with
`NoSuchCalendarException` and an empty save trace. -/
theorem create_event_missing_calendar_witness :
    create_event fixtureStore gymCalendarCreateRequest =
      ⟨Except.error (CalError.noSuchCalendar "Gym"), []⟩ :=
  create_event_missing_calendar fixtureStore gymCalendarCreateRequest "Gym" rfl
    (by decide) (by decide)

/-- C8 counterexample: an event with no native alarms projects
`alarms_minutes_offsets` as the present empty list, not as absent. -/
theorem projection_no_alarms_counterexample :
    bareEKEvent.alarms = none ∧
    Event.from_ekevent bareEKEvent = Except.ok bareEvent ∧
    bareEvent.alarms_minutes_offsets = some [] ∧
    (some ([] : List Int) ≠ (none : Option (List Int))) := by decide

/-- C8 (amended): unset optional native fields project to absent for
location, notes, url, organizer, last-modified and recurrence; attendees
project to an empty list when there are none; and the alarm list likewise
projects to a present empty list (not absent) when the native alarms are
unset. -/
theorem projection_absent_fields (e : EKEvent) (ev : Event)
    (hok : Event.from_ekevent e = Except.ok ev) :
    ev.location = e.location ∧
    ev.notes = e.notes ∧
    ev.url = e.URL ∧
    ev.organizer = e.organizer.map (fun o => o.name) ∧
    ev.last_modified = e.lastModifiedDate ∧
    (e.recurrenceRule = none → ev.recurrence_rule = none) ∧
    (e.attendees = none → ev.attendees = some []) ∧
    (e.alarms = none → ev.alarms_minutes_offsets = some []) := by
  obtain ⟨-, -, -, -, hloc, hnotes, hurl, -, horg, hlm, -, -, -, hrec, hatt, halm⟩ :=
    from_ekevent_fields e ev hok
  refine ⟨hloc, hnotes, hurl, horg, hlm, hrec, ?_, ?_⟩
  · intro h0
    rw [h0] at hatt
    exact hatt
  · intro h0
    rw [h0] at halm
    exact halm

/-- C8 witness: the fixture event with every optional native field unset
projects location, notes, url and organizer as absent, and attendees and
alarms as empty lists. -/
theorem projection_absent_fields_witness :
    bareEvent.location = bareEKEvent.location ∧
    bareEvent.notes = bareEKEvent.notes ∧
    bareEvent.url = bareEKEvent.URL ∧
    bareEvent.organizer = bareEKEvent.organizer.map (fun o => o.name) ∧
    bareEvent.last_modified = bareEKEvent.lastModifiedDate ∧
    (bareEKEvent.recurrenceRule = none → bareEvent.recurrence_rule = none) ∧
    (bareEKEvent.attendees = none → bareEvent.attendees = some []) ∧
    (bareEKEvent.alarms = none → bareEvent.alarms_minutes_offsets = some []) :=
  projection_absent_fields bareEKEvent bareEvent (by decide)

end MCPIcal
